import Mathlib

/-!
# Verification of the announcements service

A shallow embedding of `src/backend/routers/announcements.py` from the
`skills-copilot-code-review` repository, together with theorems settling the
specification claims about it.

Modelling conventions:

* Python `datetime` values are represented by the `PyDateTime` structure
  (wall-clock fields plus an optional UTC offset in microseconds).
* `datetime.fromisoformat` is modelled after CPython's C implementation as of
  Python 3.10 — the version presupposed by the source's own comment that
  `fromisoformat` rejects a trailing `Z`.  It accepts exactly
  `YYYY-MM-DD[<any separator char>HH[:MM[:SS[.fff[fff]]]][±HH:MM[:SS[.ffffff]]]]`
  with fixed-width ASCII digit fields, and the resulting date/time components
  must satisfy the `datetime` constructor's range checks (year 1–9999,
  month 1–12, day within the month, hour ≤ 23, minute ≤ 59, second ≤ 59, and
  a timezone offset strictly between -24h and +24h).
* Instants are compared on an unbounded integer timeline of microseconds
  (`wallMicros`); the `datetime` year range 1–9999 and the `OverflowError`
  that `astimezone` can raise at the extreme ends of that range are not
  modelled.
* `_to_utc_naive` converts a naive datetime by assuming the server's local
  timezone; that local offset is modelled as an arbitrary constant parameter
  `localOff` (microseconds east of UTC) threaded through all definitions.
* Mongo documents become the `AnnDoc` structure; `ObjectId` keys are modelled
  as abstract `Nat` keys (their string round-tripping at the HTTP boundary is
  elided, which is what the claims mean by "modulo identifier formatting").
* Python truthiness of an optional string field (`if announcement.start_date:`
  and `if announcement.get("start_date"):`) is `pyTruthy`: `None` and the
  empty string are falsy, every other string is truthy.
-/

/-! ## Character and digit utilities -/

/-- Numeric value of an ASCII digit character. -/
def digitVal (c : Char) : Nat := c.toNat - '0'.toNat

/-- Fold a list of ASCII digit characters into the number they denote. -/
def digitsToNat (l : List Char) : Nat := l.foldl (fun a c => a * 10 + digitVal c) 0

/-- Read exactly two ASCII digits from the front of a character list
(CPython's `parse_digits` with width 2). -/
def digits2 : List Char → Option (Nat × List Char)
  | a :: b :: rest =>
    if a.isDigit && b.isDigit then some (digitVal a * 10 + digitVal b, rest) else none
  | _ => none

/-! ## Calendar arithmetic -/

/-- Gregorian leap-year test, as in Python's `calendar.isleap`. -/
def isLeapYear (y : Nat) : Bool := y % 4 == 0 && (y % 100 != 0 || y % 400 == 0)

/-- Number of days in a month of a given year. -/
def daysInMonth (y m : Nat) : Nat :=
  if m = 2 then (if isLeapYear y then 29 else 28)
  else if m = 4 || m = 6 || m = 9 || m = 11 then 30
  else 31

/-- Days elapsed since 0000-03-01 of the civil date `(y, m, d)`
(valid for `y ≥ 1`); the standard days-from-civil algorithm. -/
def daysFromCivil (y m d : Nat) : Nat :=
  let ys := if m ≤ 2 then y - 1 else y
  let era := ys / 400
  let yoe := ys % 400
  let mp := if m > 2 then m - 3 else m + 9
  let doy := (153 * mp + 2) / 5 + d - 1
  let doe := yoe * 365 + yoe / 4 - yoe / 100 + doy
  era * 146097 + doe

/-! ## The `datetime` model -/

/-- A Python `datetime` value: wall-clock fields plus an optional fixed UTC
offset (`tzoffset`, in microseconds east of UTC; `none` means naive). -/
structure PyDateTime where
  year : Nat
  month : Nat
  day : Nat
  hour : Nat
  minute : Nat
  second : Nat
  microsecond : Nat
  tzoffset : Option Int
deriving DecidableEq, Repr

/-- Wall-clock value of a datetime on the microsecond timeline. -/
def wallMicros (dt : PyDateTime) : Int :=
  (daysFromCivil dt.year dt.month dt.day : Int) * 86400000000
    + dt.hour * 3600000000 + dt.minute * 60000000
    + dt.second * 1000000 + dt.microsecond

/-- CPython's `parse_hh_mm_ss_ff`: parse `HH[:MM[:SS[.fff[fff]]]]` from an
entire character list, returning `(hour, minute, second, microsecond)`. -/
def parseHMSF (l : List Char) : Option (Nat × Nat × Nat × Nat) :=
  match digits2 l with
  | none => none
  | some (h, r1) =>
    match r1 with
    | [] => some (h, 0, 0, 0)
    | ':' :: r2 =>
      match digits2 r2 with
      | none => none
      | some (mi, r3) =>
        match r3 with
        | [] => some (h, mi, 0, 0)
        | ':' :: r4 =>
          match digits2 r4 with
          | none => none
          | some (s, r5) =>
            match r5 with
            | [] => some (h, mi, s, 0)
            | '.' :: r6 =>
              if (r6.length = 3 || r6.length = 6) && r6.all Char.isDigit then
                some (h, mi, s, if r6.length = 3 then digitsToNat r6 * 1000 else digitsToNat r6)
              else none
            | _ => none
        | _ => none
    | _ => none

/-- CPython's `parse_isoformat_time`: split the time string at the first
`+`/`-` (timezone marker), parse both halves with `parseHMSF`, and apply the
`datetime`/`timezone` constructor range checks.  The timezone tail (sign
excluded) must have length 5, 8 or 15, and the offset must lie strictly
between -24 and +24 hours. -/
def parseIsoTime (l : List Char) : Option (Nat × Nat × Nat × Nat × Option Int) :=
  let i := l.findIdx (fun c => c == '+' || c == '-')
  let timecs := l.take i
  let tzcs := l.drop i
  match parseHMSF timecs with
  | none => none
  | some (h, mi, s, us) =>
    if h ≤ 23 && mi ≤ 59 && s ≤ 59 then
      match tzcs with
      | [] => some (h, mi, s, us, none)
      | sign :: tzrest =>
        if tzrest.length = 5 || tzrest.length = 8 || tzrest.length = 15 then
          match parseHMSF tzrest with
          | none => none
          | some (th, tm, ts, tus) =>
            let mag : Int := ((th * 3600 + tm * 60 + ts) * 1000000 + tus : Nat)
            let off : Int := if sign == '-' then -mag else mag
            if -86400000000 < off && off < 86400000000 then
              some (h, mi, s, us, some off)
            else none
        else none
    else none

/-- CPython 3.10's `datetime.fromisoformat`: a 10-character `YYYY-MM-DD` date,
optionally followed by one arbitrary separator character and a non-empty time
string handled by `parseIsoTime`. -/
def fromisoformat (l : List Char) : Option PyDateTime :=
  match l with
  | y1 :: y2 :: y3 :: y4 :: '-' :: m1 :: m2 :: '-' :: d1 :: d2 :: rest =>
    if y1.isDigit && y2.isDigit && y3.isDigit && y4.isDigit
        && m1.isDigit && m2.isDigit && d1.isDigit && d2.isDigit then
      let y := digitsToNat [y1, y2, y3, y4]
      let mo := digitVal m1 * 10 + digitVal m2
      let dy := digitVal d1 * 10 + digitVal d2
      if 1 ≤ y && 1 ≤ mo && mo ≤ 12 && 1 ≤ dy && dy ≤ daysInMonth y mo then
        match rest with
        | [] => some ⟨y, mo, dy, 0, 0, 0, 0, none⟩
        | _ :: tcs =>
          match parseIsoTime tcs with
          | some (h, mi, s, us, tz) => some ⟨y, mo, dy, h, mi, s, us, tz⟩
          | none => none
      else none
    else none
  | _ => none

/-- `_to_utc_naive`: place a datetime on the UTC microsecond timeline.
An aware datetime subtracts its own offset; a naive one is assumed to be in
the server's local timezone, modelled by the constant offset `localOff`. -/
def to_utc_naive (localOff : Int) (dt : PyDateTime) : Int :=
  wallMicros dt - (dt.tzoffset.getD localOff)

/-! ## The permissive timestamp parser `_parse_iso_datetime` -/

/-- Python's `str.strip()` (restricted to ASCII whitespace): drop whitespace
from both ends. -/
def pyStrip (l : List Char) : List Char :=
  ((l.dropWhile Char.isWhitespace).reverse.dropWhile Char.isWhitespace).reverse

/-- The `+00:00` suffix substituted for a trailing `Z`. -/
def plus0000 : List Char := '+' :: '0' :: '0' :: ':' :: '0' :: '0' :: []

/-- The `Z`-to-`+00:00` substitution: `if v.endswith("Z"): v = v[:-1] + "+00:00"`. -/
def zReplace (l : List Char) : List Char :=
  if l.getLast? = some 'Z' then l.dropLast ++ plus0000 else l

/-- Shared head matcher of the two fallback regular expressions: the 16
characters `\d{4}-\d{2}-\d{2}T\d{2}:\d{2}` followed by the remainder. -/
def matchDateHM : List Char → Option (List Char × List Char)
  | y1 :: y2 :: y3 :: y4 :: '-' :: m1 :: m2 :: '-' :: d1 :: d2 :: 'T' :: h1 :: h2 :: ':' :: n1 :: n2 :: rest =>
    if y1.isDigit && y2.isDigit && y3.isDigit && y4.isDigit
        && m1.isDigit && m2.isDigit && d1.isDigit && d2.isDigit
        && h1.isDigit && h2.isDigit && n1.isDigit && n2.isDigit then
      some ([y1, y2, y3, y4, '-', m1, m2, '-', d1, d2, 'T', h1, h2, ':', n1, n2], rest)
    else none
  | _ => none

/-- The missing-seconds fallback `^(\d{4}-\d{2}-\d{2})T(\d{2}:\d{2})([+-]\d{2}:\d{2})?$`:
on a match, rebuild the string with `:00` seconds inserted. -/
def missingSecondsRewrite (l : List Char) : Option (List Char) :=
  match matchDateHM l with
  | none => none
  | some (h, rest) =>
    match rest with
    | [] => some (h ++ (':' :: '0' :: '0' :: []))
    | s :: o1 :: o2 :: ':' :: o3 :: o4 :: [] =>
      if (s == '+' || s == '-') && o1.isDigit && o2.isDigit && o3.isDigit && o4.isDigit then
        some (h ++ (':' :: '0' :: '0' :: []) ++ rest)
      else none
    | _ => none

/-- The fractional-seconds fallback
`^(\d{4}-\d{2}-\d{2}T\d{2}:\d{2}:\d{2})\.\d+(.*)$`: on a match, rebuild the
string with the `.` and the (maximal) digit run after it removed. -/
def fracSecondsRewrite (l : List Char) : Option (List Char) :=
  match matchDateHM l with
  | none => none
  | some (h, rest) =>
    match rest with
    | ':' :: s1 :: s2 :: '.' :: c :: tail =>
      if s1.isDigit && s2.isDigit && c.isDigit then
        some (h ++ (':' :: s1 :: s2 :: []) ++ tail.dropWhile Char.isDigit)
      else none
    | _ => none

/-- The fallback chain of `_parse_iso_datetime` on the preprocessed
(stripped, `Z`-substituted) character list, with the source's exact control
flow: a direct `fromisoformat` attempt; then, if the missing-seconds pattern
matches, only its rewrite is re-parsed (a failure there falls through to the
final error, not to the third pattern); otherwise the fractional-seconds
rewrite is attempted. -/
def parseChainW (w : List Char) : Option PyDateTime :=
  match fromisoformat w with
  | some dt => some dt
  | none =>
    match missingSecondsRewrite w with
    | some v2 => fromisoformat v2
    | none =>
      match fracSecondsRewrite w with
      | some v3 => fromisoformat v3
      | none => none

/-- `_parse_iso_datetime` on the underlying character list. -/
def parse_iso_core (l : List Char) : Option PyDateTime :=
  parseChainW (zReplace (pyStrip l))

/-- `_parse_iso_datetime`: strip the input, substitute a trailing `Z`, try the
fallback chain, and on total failure raise `ValueError` carrying the original
(unstripped) string. -/
def parse_iso_datetime (value : String) : Except String PyDateTime :=
  match parse_iso_core value.data with
  | some dt => Except.ok dt
  | none => Except.error ("Invalid ISO datetime: " ++ value)

/-- Boolean acceptance of the parser. -/
def parseOk (value : String) : Bool := (parse_iso_core value.data).isSome

/-! ## The announcements service -/

/-- Error taxonomy of the endpoints (HTTP 401 / 400 / 404). -/
inductive Err where
  | unauthorized
  | invalidInput
  | notFound
deriving DecidableEq, Repr

/-- A stored announcement document (without its store key). -/
structure AnnDoc where
  message : String
  start_date : Option String
  expiration_date : String
  created_by : String
  created_at : String
deriving DecidableEq, Repr

/-- Request body of `POST /announcements`. -/
structure AnnouncementCreate where
  message : String
  start_date : Option String
  expiration_date : String
  created_by : String
deriving DecidableEq, Repr

/-- Request body of `PUT /announcements/{id}`; a field that is `none` was
omitted from the request or supplied as JSON `null` (Pydantic maps both to
`None`, so the two are one and the same value here). -/
structure AnnouncementUpdate where
  message : Option String
  start_date : Option String
  expiration_date : Option String
deriving DecidableEq, Repr

/-- The persistent state: the teacher usernames (keys of
`teachers_collection`) and the announcements with their store keys. -/
structure Store where
  teachers : List String
  anns : List (Nat × AnnDoc)
  nextId : Nat
deriving DecidableEq, Repr

/-- Python truthiness of an optional string field: `None` and `""` are falsy. -/
def pyTruthy : Option String → Bool
  | none => false
  | some s => !s.isEmpty

/-- The active-window test applied to one stored document by
`get_active_announcements` (the body of its `for` loop): parse and normalize
the expiration (any failure skips the record), skip if expired, then — only
when the stored `start_date` is truthy — parse and normalize it (any failure
skips the record) and skip if it is still in the future. -/
def is_active (localOff now : Int) (a : AnnDoc) : Bool :=
  match parse_iso_datetime a.expiration_date with
  | Except.error _ => false
  | Except.ok exp =>
    if to_utc_naive localOff exp < now then false
    else
      match a.start_date with
      | none => true
      | some s =>
        if s.isEmpty then true
        else
          match parse_iso_datetime s with
          | Except.error _ => false
          | Except.ok st => !(to_utc_naive localOff st > now)

/-- `GET /announcements/active`: the stored announcements passing `is_active`
at the current instant (no authentication). -/
def get_active_announcements (localOff now : Int) (st : Store) : List (Nat × AnnDoc) :=
  st.anns.filter (fun p => is_active localOff now p.2)

/-- `GET /announcements`: all stored announcements, for a known teacher. -/
def get_all_announcements (username : String) (st : Store) : Except Err (List (Nat × AnnDoc)) :=
  if st.teachers.contains username then Except.ok st.anns else Except.error Err.unauthorized

/-- The insertion step of `create_announcement`: build the document from the
request's own strings (dates stored verbatim), insert it under a fresh key,
and return it. -/
def create_insert (createdAt : String) (st : Store) (req : AnnouncementCreate) :
    Store × (Nat × AnnDoc) :=
  let doc : AnnDoc :=
    { message := req.message
      start_date := req.start_date
      expiration_date := req.expiration_date
      created_by := req.created_by
      created_at := createdAt }
  (⟨st.teachers, st.anns ++ [(st.nextId, doc)], st.nextId + 1⟩, (st.nextId, doc))

/-- `POST /announcements`: authenticate `created_by`; reject (`InvalidInput`)
an expiration that fails to parse or is not strictly in the future; reject a
truthy `start_date` that fails to parse; then persist.  `createdAt` stands for
the server's `datetime.now().isoformat()` string. -/
def create_announcement (localOff now : Int) (createdAt : String) (st : Store)
    (req : AnnouncementCreate) : Except Err (Store × (Nat × AnnDoc)) :=
  if !(st.teachers.contains req.created_by) then Except.error Err.unauthorized
  else
    match parse_iso_datetime req.expiration_date with
    | Except.error _ => Except.error Err.invalidInput
    | Except.ok exp =>
      if to_utc_naive localOff exp ≤ now then Except.error Err.invalidInput
      else
        if pyTruthy req.start_date then
          match parse_iso_datetime (req.start_date.getD "") with
          | Except.error _ => Except.error Err.invalidInput
          | Except.ok _ => Except.ok (create_insert createdAt st req)
        else Except.ok (create_insert createdAt st req)

/-- `find_one` on the announcements collection. -/
def findAnn (st : Store) (id : Nat) : Option (Nat × AnnDoc) :=
  st.anns.find? (fun p => p.1 == id)

/-- Mongo's `update_one`: apply `f` to the first document stored under `id`. -/
def setFirst (id : Nat) (f : AnnDoc → AnnDoc) : List (Nat × AnnDoc) → List (Nat × AnnDoc)
  | [] => []
  | (k, d) :: rest => if k = id then (k, f d) :: rest else (k, d) :: setFirst id f rest

/-- The `$set` document built by `update_announcement`, applied to the stored
document: each field provided (not `None`) in the request overwrites the
stored field with the request's own string. -/
def apply_update (upd : AnnouncementUpdate) (d : AnnDoc) : AnnDoc :=
  let d1 := match upd.message with
    | some m => { d with message := m }
    | none => d
  let d2 := match upd.start_date with
    | some s => { d1 with start_date := some s }
    | none => d1
  match upd.expiration_date with
  | some e => { d2 with expiration_date := e }
  | none => d2

/-- Whether the request provides at least one field (`if update_doc:`). -/
def update_provided (upd : AnnouncementUpdate) : Bool :=
  upd.message.isSome || upd.start_date.isSome || upd.expiration_date.isSome

/-- Tail of `update_announcement` after all validations: write the merged
document (only when at least one field was provided), then re-read and return
the record. -/
def update_commit (st : Store) (id : Nat) (upd : AnnouncementUpdate)
    (kd : Nat × AnnDoc) : Except Err (Store × (Nat × AnnDoc)) :=
  if update_provided upd then
    match findAnn ⟨st.teachers, setFirst id (apply_update upd) st.anns, st.nextId⟩ id with
    | some p => Except.ok (⟨st.teachers, setFirst id (apply_update upd) st.anns, st.nextId⟩, p)
    | none => Except.error Err.notFound
  else Except.ok (st, kd)

/-- Expiration-field validation step of `update_announcement`: a provided
expiration must parse and be strictly in the future. -/
def update_check_exp (localOff now : Int) (st : Store) (id : Nat)
    (upd : AnnouncementUpdate) (kd : Nat × AnnDoc) : Except Err (Store × (Nat × AnnDoc)) :=
  match upd.expiration_date with
  | none => update_commit st id upd kd
  | some e =>
    match parse_iso_datetime e with
    | Except.error _ => Except.error Err.invalidInput
    | Except.ok exp =>
      if to_utc_naive localOff exp ≤ now then Except.error Err.invalidInput
      else update_commit st id upd kd

/-- `PUT /announcements/{id}`: authenticate, look the record up (`NotFound`
otherwise), validate a provided `start_date` (`is not None` — the empty string
is validated here, unlike in `create`), validate a provided expiration, and
only then write. -/
def update_announcement (localOff now : Int) (st : Store) (id : Nat)
    (upd : AnnouncementUpdate) (username : String) : Except Err (Store × (Nat × AnnDoc)) :=
  if !(st.teachers.contains username) then Except.error Err.unauthorized
  else
    match findAnn st id with
    | none => Except.error Err.notFound
    | some kd =>
      match upd.start_date with
      | none => update_check_exp localOff now st id upd kd
      | some s =>
        match parse_iso_datetime s with
        | Except.error _ => Except.error Err.invalidInput
        | Except.ok _ => update_check_exp localOff now st id upd kd

/-! ## Spec-side definitions

These definitions follow the wording of the specification claims (not the
source); they exist to be compared with the source-derived definitions above.
-/

/-- Strategy (1) of the spec's parsing contract: the direct ISO-8601 parse of
the working string (input stripped, trailing `Z` replaced by `+00:00`). -/
def strategyDirect (value : String) : Option PyDateTime :=
  fromisoformat (zReplace (pyStrip value.data))

/-- Strategy (2): the missing-seconds pattern with seconds defaulted to `:00`. -/
def strategyNoSeconds (value : String) : Option PyDateTime :=
  (missingSecondsRewrite (zReplace (pyStrip value.data))).bind fromisoformat

/-- Strategy (3): the fractional-seconds-stripped pattern. -/
def strategyNoFrac (value : String) : Option PyDateTime :=
  (fracSecondsRewrite (zReplace (pyStrip value.data))).bind fromisoformat

/-- The spec's description of the parser: try the three strategies in order
and return the first success. -/
def specStrategyChain (value : String) : Option PyDateTime :=
  match strategyDirect value with
  | some dt => some dt
  | none =>
    match strategyNoSeconds value with
    | some dt => some dt
    | none => strategyNoFrac value

/-- The spec's reading of "valid ISO-8601": accepted by the direct ISO-8601
parse (`datetime.fromisoformat`). -/
def isValidIso (s : String) : Bool := (fromisoformat s.data).isSome

/-- Claim C1's active predicate, per its wording: the expiration parses and
its UTC normalization is ≥ now, and the start date is *absent* (`none`) or
parses with UTC normalization ≤ now. -/
def specActiveC1 (localOff now : Int) (a : AnnDoc) : Bool :=
  (match parse_iso_datetime a.expiration_date with
   | Except.ok e => decide (now ≤ to_utc_naive localOff e)
   | Except.error _ => false)
  && (match a.start_date with
      | none => true
      | some s =>
        match parse_iso_datetime s with
        | Except.ok t => decide (to_utc_naive localOff t ≤ now)
        | Except.error _ => false)

/-- Claim C2's active predicate, per its wording: `now < expiration` strictly
(so `expiration = now` is inactive), and the start date is absent (`none`) or
parses with UTC normalization ≤ now. -/
def specActiveStrict (localOff now : Int) (a : AnnDoc) : Bool :=
  (match parse_iso_datetime a.expiration_date with
   | Except.ok e => decide (now < to_utc_naive localOff e)
   | Except.error _ => false)
  && (match a.start_date with
      | none => true
      | some s =>
        match parse_iso_datetime s with
        | Except.ok t => decide (to_utc_naive localOff t ≤ now)
        | Except.error _ => false)

/-- The corrected active-window predicate, stated in the spec's vocabulary:
the expiration parses with UTC normalization ≥ now, and the stored start date
is falsy (absent or empty) or parses with UTC normalization ≤ now. -/
def ActiveSpec (localOff now : Int) (a : AnnDoc) : Prop :=
  (∃ e, parse_iso_datetime a.expiration_date = Except.ok e ∧ now ≤ to_utc_naive localOff e) ∧
  (pyTruthy a.start_date = false ∨
    ∃ s t, a.start_date = some s ∧ parse_iso_datetime s = Except.ok t ∧
      to_utc_naive localOff t ≤ now)

/-! ## Theorems -/

/-- The source's active test agrees with the corrected spec-level predicate. -/
theorem is_active_iff_spec (localOff now : Int) (a : AnnDoc) :
    is_active localOff now a = true ↔ ActiveSpec localOff now a := by
  unfold is_active ActiveSpec
  cases hp : parse_iso_datetime a.expiration_date with
  | error msg => simp
  | ok e =>
    by_cases hlt : to_utc_naive localOff e < now
    · simp only [if_pos hlt, Bool.false_eq_true, false_iff]
      rintro ⟨⟨e', he', hle⟩, -⟩
      injection he' with h
      subst h
      omega
    · simp only [if_neg hlt]
      cases hs : a.start_date with
      | none =>
        simp [pyTruthy]
        omega
      | some s =>
        by_cases hse : s.isEmpty
        · simp [hse, pyTruthy]
          omega
        · simp only [if_neg hse]
          cases hps : parse_iso_datetime s with
          | error msg =>
            simp [pyTruthy, hse, hps]
          | ok t =>
            simp [pyTruthy, hse, hps]
            omega

/-- Success of `parse_iso_datetime` is success of the underlying chain. -/
theorem parse_iso_datetime_ok_iff (s : String) (dt : PyDateTime) :
    parse_iso_datetime s = Except.ok dt ↔ parse_iso_core s.data = some dt := by
  unfold parse_iso_datetime
  cases h : parse_iso_core s.data <;> simp

/-- A parse success contradicts `parseOk = false`. -/
theorem parse_ok_ne_of_not_parseOk (s : String) (dt : PyDateTime)
    (h : parseOk s = false) : parse_iso_datetime s ≠ Except.ok dt := by
  intro hok
  rw [parse_iso_datetime_ok_iff] at hok
  unfold parseOk at h
  rw [hok] at h
  simp at h

/-- Claim C1 (counterexample): a stored announcement whose `start_date` is the
empty string — present but unparseable — is nevertheless returned by
`list_active`, although the claim's predicate (start absent, or parses and
≤ now) demands its exclusion.  The code tests Python truthiness, under which
an empty `start_date` is skipped like an absent one. -/
theorem claim1_counterexample :
    ((0, AnnDoc.mk "m" (some "") "2030-01-01T00:00:00+00:00" "t" "c") ∈
      get_active_announcements 0 0
        ⟨["t"], [(0, AnnDoc.mk "m" (some "") "2030-01-01T00:00:00+00:00" "t" "c")], 1⟩) ∧
    specActiveC1 0 0 (AnnDoc.mk "m" (some "") "2030-01-01T00:00:00+00:00" "t" "c") = false ∧
    parse_iso_core "".data = none := by
  decide

/-- Claim C1 (amended): `list_active` includes a stored announcement iff its
expiration parses with UTC normalization ≥ now and its `start_date` is falsy
(absent *or empty*) or parses with UTC normalization ≤ now. -/
theorem claim1_active_listing_amended (localOff now : Int) (st : Store) (p : Nat × AnnDoc) :
    p ∈ get_active_announcements localOff now st ↔
      p ∈ st.anns ∧ ActiveSpec localOff now p.2 := by
  unfold get_active_announcements
  rw [List.mem_filter]
  exact and_congr_right fun _ => is_active_iff_spec localOff now p.2

/-- Claim C2 (counterexample): an announcement whose UTC-normalized expiration
is exactly the current instant is *active* (the code skips only when
`expiration < now`), contradicting the claim's strict `now < expiration` and
its "expiration == now ⇒ inactive"; its empty (unparseable, non-absent)
`start_date` is also tolerated. -/
theorem claim2_counterexample :
    parse_iso_core "2030-01-01T00:00:00+00:00".data =
      some ⟨2030, 1, 1, 0, 0, 0, 0, some 0⟩ ∧
    is_active 0 (to_utc_naive 0 ⟨2030, 1, 1, 0, 0, 0, 0, some 0⟩)
      (AnnDoc.mk "m" (some "") "2030-01-01T00:00:00+00:00" "t" "c") = true ∧
    specActiveStrict 0 (to_utc_naive 0 ⟨2030, 1, 1, 0, 0, 0, 0, some 0⟩)
      (AnnDoc.mk "m" (some "") "2030-01-01T00:00:00+00:00" "t" "c") = false := by
  refine ⟨by decide, by decide, by decide⟩

/-- Claim C2 (amended): the active predicate of `list_active` holds iff the
expiration parses and `now ≤ expiration` (inclusive: `expiration = now` is
still active) and the `start_date` is falsy (absent or empty) or parses with
UTC-normalized start ≤ now. -/
theorem claim2_is_active_amended (localOff now : Int) (a : AnnDoc) :
    is_active localOff now a = true ↔ ActiveSpec localOff now a :=
  is_active_iff_spec localOff now a

/-- Claim C8 (counterexample): a stored record with an unparseable
`start_date` — the empty string — is *not* excluded from `list_active`
(truthiness skips the start check entirely), although the claim says every
record with a malformed `start_date` is excluded. -/
theorem claim8_counterexample :
    parse_iso_core "".data = none ∧
    ((0, AnnDoc.mk "m" (some "") "2030-01-01T00:00:00+00:00" "t" "c") ∈
      get_active_announcements 0 0
        ⟨["t"], [(0, AnnDoc.mk "m" (some "") "2030-01-01T00:00:00+00:00" "t" "c")], 1⟩) := by
  decide

/-- Claim C8 (amended): a stored record whose `expiration_date` is unparseable,
or whose `start_date` is truthy (present and non-empty) and unparseable, is
excluded from `list_active` — without any error, `is_active` being a total
function — while `list_all` for a known teacher still returns every stored
record unfiltered. -/
theorem claim8_malformed_dates_amended (localOff now : Int) (st : Store)
    (username : String) (p : Nat × AnnDoc)
    (ht : st.teachers.contains username = true)
    (hm : p ∈ st.anns)
    (hbad : parseOk p.2.expiration_date = false ∨
      (pyTruthy p.2.start_date = true ∧ parseOk (p.2.start_date.getD "") = false)) :
    p ∉ get_active_announcements localOff now st ∧
    get_all_announcements username st = Except.ok st.anns ∧ p ∈ st.anns := by
  refine ⟨?_, ?_, hm⟩
  · intro hmem
    unfold get_active_announcements at hmem
    rw [List.mem_filter] at hmem
    obtain ⟨-, hact⟩ := hmem
    rw [is_active_iff_spec] at hact
    obtain ⟨⟨e, he, -⟩, hstart⟩ := hact
    cases hbad with
    | inl h => exact parse_ok_ne_of_not_parseOk _ _ h he
    | inr h =>
      obtain ⟨htr, hsp⟩ := h
      cases hstart with
      | inl h0 => rw [htr] at h0; exact absurd h0 (by simp)
      | inr h0 =>
        obtain ⟨s, t, hs, hpt, -⟩ := h0
        rw [hs] at hsp
        exact parse_ok_ne_of_not_parseOk _ _ hsp hpt
  · unfold get_all_announcements
    rw [if_pos ht]

/-- Claim C8 (witness): a concrete record with unparseable expiration is
absent from the active listing and present in the full listing. -/
theorem claim8_witness :
    ((0, AnnDoc.mk "m" none "not-a-date" "t1" "c") ∉
      get_active_announcements 0 0 ⟨["t1"], [(0, AnnDoc.mk "m" none "not-a-date" "t1" "c")], 1⟩) ∧
    get_all_announcements "t1" ⟨["t1"], [(0, AnnDoc.mk "m" none "not-a-date" "t1" "c")], 1⟩ =
      Except.ok [(0, AnnDoc.mk "m" none "not-a-date" "t1" "c")] ∧
    ((0, AnnDoc.mk "m" none "not-a-date" "t1" "c") ∈
      [(0, AnnDoc.mk "m" none "not-a-date" "t1" "c")]) := by
  exact claim8_malformed_dates_amended 0 0
    ⟨["t1"], [(0, AnnDoc.mk "m" none "not-a-date" "t1" "c")], 1⟩ "t1"
    (0, AnnDoc.mk "m" none "not-a-date" "t1" "c")
    (by decide) (by decide) (Or.inl (by decide))

/-- `parseOk` agrees with `parse_iso_datetime` succeeding. -/
theorem parseOk_eq_true_iff (s : String) :
    parseOk s = true ↔ ∃ dt, parse_iso_datetime s = Except.ok dt := by
  unfold parseOk
  cases h : parse_iso_core s.data with
  | none =>
    simp only [Option.isSome_none, Bool.false_eq_true, false_iff]
    rintro ⟨dt, hdt⟩
    rw [parse_iso_datetime_ok_iff, h] at hdt
    exact Option.noConfusion hdt
  | some dt =>
    simp only [Option.isSome_some, true_iff]
    exact ⟨dt, (parse_iso_datetime_ok_iff s dt).mpr h⟩

/-- `find?` after `setFirst` on the found key returns the rewritten record. -/
theorem find?_setFirst (id : Nat) (f : AnnDoc → AnnDoc) (l : List (Nat × AnnDoc))
    (k : Nat) (d : AnnDoc) (h : l.find? (fun p => p.1 == id) = some (k, d)) :
    (setFirst id f l).find? (fun p => p.1 == id) = some (k, f d) := by
  induction l with
  | nil => exact Option.noConfusion h
  | cons hd tl ih =>
    obtain ⟨k', d'⟩ := hd
    by_cases hk : k' = id
    · subst hk
      rw [List.find?_cons_of_pos _ (by simp)] at h
      injection h with h
      obtain ⟨h1, h2⟩ := Prod.mk.injEq .. ▸ congrArg id h
      unfold setFirst
      rw [if_pos rfl, List.find?_cons_of_pos _ (by simp)]
      cases h
      rfl
    · rw [List.find?_cons_of_neg _ (by simp [hk])] at h
      unfold setFirst
      rw [if_neg hk, List.find?_cons_of_neg _ (by simp [hk])]
      exact ih h

/-- Characterization of a successful `update_announcement`: the target record
was found, and the result is either the untouched store with the found record
(nothing provided) or the store with exactly that record merged; either way
the returned record is the one stored under `id` afterwards. -/
theorem update_ok_characterize (localOff now : Int) (st : Store) (id : Nat)
    (upd : AnnouncementUpdate) (username : String) (st2 : Store) (p2 : Nat × AnnDoc)
    (hs : update_announcement localOff now st id upd username = Except.ok (st2, p2)) :
    ∃ k d, findAnn st id = some (k, d) ∧ findAnn st2 id = some p2 ∧
      ((update_provided upd = false ∧ st2 = st ∧ p2 = (k, d)) ∨
       (update_provided upd = true ∧
        st2 = ⟨st.teachers, setFirst id (apply_update upd) st.anns, st.nextId⟩ ∧
        p2 = (k, apply_update upd d))) := by
  unfold update_announcement at hs
  split at hs
  · exact absurd hs (by simp)
  · split at hs
    · exact absurd hs (by simp)
    · rename_i kd heq
      obtain ⟨k, d⟩ := kd
      refine ⟨k, d, heq, ?_⟩
      have hcommit : update_commit st id upd (k, d) = Except.ok (st2, p2) := by
        have hexp : update_check_exp localOff now st id upd (k, d) =
            Except.ok (st2, p2) := by
          split at hs
          · exact hs
          · split at hs
            · exact absurd hs (by simp)
            · exact hs
        unfold update_check_exp at hexp
        split at hexp
        · exact hexp
        · split at hexp
          · exact absurd hexp (by simp)
          · split at hexp
            · exact absurd hexp (by simp)
            · exact hexp
      unfold update_commit at hcommit
      split at hcommit
      · rename_i hprov
        have hfind : findAnn ⟨st.teachers, setFirst id (apply_update upd) st.anns, st.nextId⟩ id =
            some (k, apply_update upd d) := by
          unfold findAnn at heq ⊢
          exact find?_setFirst id (apply_update upd) st.anns k d heq
        rw [hfind] at hcommit
        injection hcommit with hc
        cases hc
        exact ⟨hfind, Or.inr ⟨hprov, rfl, rfl⟩⟩
      · rename_i hprov
        injection hcommit with hc
        cases hc
        exact ⟨heq, Or.inl ⟨by simpa using hprov, rfl, rfl⟩⟩

/-- Field equations of the merge document. -/
theorem apply_update_fields (upd : AnnouncementUpdate) (d : AnnDoc) :
    (apply_update upd d).message = upd.message.getD d.message ∧
    (apply_update upd d).start_date = upd.start_date.or d.start_date ∧
    (apply_update upd d).expiration_date = upd.expiration_date.getD d.expiration_date := by
  unfold apply_update
  cases upd.message <;> cases upd.start_date <;> cases upd.expiration_date <;>
    simp [Option.or]

/-- After authentication and lookup succeed, `update_announcement` reduces to
its validation chain. -/
theorem update_announcement_eq (localOff now : Int) (st : Store) (id : Nat)
    (upd : AnnouncementUpdate) (username : String) (kd : Nat × AnnDoc)
    (ht : st.teachers.contains username = true) (hf : findAnn st id = some kd) :
    update_announcement localOff now st id upd username =
      match upd.start_date with
      | none => update_check_exp localOff now st id upd kd
      | some s =>
        match parse_iso_datetime s with
        | Except.error _ => Except.error Err.invalidInput
        | Except.ok _ => update_check_exp localOff now st id upd kd := by
  unfold update_announcement
  rw [ht, hf]
  exact rfl

/-- Claim C6: updating an existing announcement with no fields provided
returns the stored record unchanged and leaves the store untouched (no write
happens: the returned store is the input store itself). -/
theorem claim6_update_noop (localOff now : Int) (st : Store) (id : Nat)
    (username : String) (k : Nat) (d : AnnDoc)
    (ht : st.teachers.contains username = true)
    (hf : findAnn st id = some (k, d)) :
    update_announcement localOff now st id ⟨none, none, none⟩ username =
      Except.ok (st, (k, d)) := by
  rw [update_announcement_eq localOff now st id ⟨none, none, none⟩ username (k, d) ht hf]
  simp [update_check_exp, update_commit, update_provided]

/-- Claim C6 (witness): the no-field update at a concrete store. -/
theorem claim6_witness :
    update_announcement 0 0
      ⟨["t1"], [(0, AnnDoc.mk "m" none "2030-01-01T00:00:00+00:00" "t1" "c")], 1⟩ 0
      ⟨none, none, none⟩ "t1" =
    Except.ok (⟨["t1"], [(0, AnnDoc.mk "m" none "2030-01-01T00:00:00+00:00" "t1" "c")], 1⟩,
      (0, AnnDoc.mk "m" none "2030-01-01T00:00:00+00:00" "t1" "c")) :=
  claim6_update_noop 0 0
    ⟨["t1"], [(0, AnnDoc.mk "m" none "2030-01-01T00:00:00+00:00" "t1" "c")], 1⟩ 0 "t1" 0
    (AnnDoc.mk "m" none "2030-01-01T00:00:00+00:00" "t1" "c") (by decide) (by decide)

/-- Claim C7: if any provided update field fails validation — an unparseable
`start_date`, or an `expiration_date` that is unparseable or not strictly
future — the whole update fails with `InvalidInput`; no store is produced, so
no field of any stored record changes, regardless of the other fields. -/
theorem claim7_update_invalid_atomic (localOff now : Int) (st : Store) (id : Nat)
    (upd : AnnouncementUpdate) (username : String) (kd : Nat × AnnDoc)
    (ht : st.teachers.contains username = true)
    (hf : findAnn st id = some kd)
    (hbad : (∃ s, upd.start_date = some s ∧ parseOk s = false) ∨
      (∃ e, upd.expiration_date = some e ∧
        (parseOk e = false ∨
          ∃ t, parse_iso_datetime e = Except.ok t ∧ to_utc_naive localOff t ≤ now))) :
    update_announcement localOff now st id upd username = Except.error Err.invalidInput := by
  rw [update_announcement_eq localOff now st id upd username kd ht hf]
  split
  · rename_i hsd
    unfold update_check_exp
    split
    · rename_i hed
      exfalso
      cases hbad with
      | inl h =>
        obtain ⟨s, h1, -⟩ := h
        rw [hsd] at h1
        exact Option.noConfusion h1
      | inr h =>
        obtain ⟨e, h1, -⟩ := h
        rw [hed] at h1
        exact Option.noConfusion h1
    · rename_i e hed
      split
      · rfl
      · rename_i t hpe
        split
        · rfl
        · rename_i hgt
          exfalso
          cases hbad with
          | inl h =>
            obtain ⟨s, h1, -⟩ := h
            rw [hsd] at h1
            exact Option.noConfusion h1
          | inr h =>
            obtain ⟨e', h1, h2⟩ := h
            rw [hed] at h1
            injection h1 with h1
            subst h1
            cases h2 with
            | inl h2 => exact parse_ok_ne_of_not_parseOk _ _ h2 hpe
            | inr h2 =>
              obtain ⟨t', ht', hle⟩ := h2
              rw [hpe] at ht'
              injection ht' with ht'
              subst ht'
              exact hgt hle
  · rename_i s hsd
    split
    · rfl
    · rename_i t0 hps
      unfold update_check_exp
      split
      · rename_i hed
        exfalso
        cases hbad with
        | inl h =>
          obtain ⟨s', h1, h2⟩ := h
          rw [hsd] at h1
          injection h1 with h1
          subst h1
          exact parse_ok_ne_of_not_parseOk _ _ h2 hps
        | inr h =>
          obtain ⟨e, h1, -⟩ := h
          rw [hed] at h1
          exact Option.noConfusion h1
      · rename_i e hed
        split
        · rfl
        · rename_i t hpe
          split
          · rfl
          · rename_i hgt
            exfalso
            cases hbad with
            | inl h =>
              obtain ⟨s', h1, h2⟩ := h
              rw [hsd] at h1
              injection h1 with h1
              subst h1
              exact parse_ok_ne_of_not_parseOk _ _ h2 hps
            | inr h =>
              obtain ⟨e', h1, h2⟩ := h
              rw [hed] at h1
              injection h1 with h1
              subst h1
              cases h2 with
              | inl h2 => exact parse_ok_ne_of_not_parseOk _ _ h2 hpe
              | inr h2 =>
                obtain ⟨t', ht', hle⟩ := h2
                rw [hpe] at ht'
                injection ht' with ht'
                subst ht'
                exact hgt hle

/-- Claim C7 (witness): an update providing a valid message together with an
unparseable expiration fails with `InvalidInput` on a concrete store. -/
theorem claim7_witness :
    update_announcement 0 0
      ⟨["t1"], [(0, AnnDoc.mk "m" none "2030-01-01T00:00:00+00:00" "t1" "c")], 1⟩ 0
      ⟨some "new message", none, some "not-a-date"⟩ "t1" =
    Except.error Err.invalidInput :=
  claim7_update_invalid_atomic 0 0
    ⟨["t1"], [(0, AnnDoc.mk "m" none "2030-01-01T00:00:00+00:00" "t1" "c")], 1⟩ 0
    ⟨some "new message", none, some "not-a-date"⟩ "t1"
    (0, AnnDoc.mk "m" none "2030-01-01T00:00:00+00:00" "t1" "c")
    (by decide) (by decide)
    (Or.inr ⟨"not-a-date", rfl, Or.inl (by decide)⟩)

/-- Claim C9: in any successful update, a field supplied as `null` — which in
the request model is the very same value as an omitted field (`none`) — leaves
the stored value unchanged; consequently a `start_date` (or any field), once
set, can never be cleared by `update`. -/
theorem claim9_null_keeps_fields (localOff now : Int) (st : Store) (id : Nat)
    (upd : AnnouncementUpdate) (username : String) (k : Nat) (d : AnnDoc)
    (st2 : Store) (p2 : Nat × AnnDoc)
    (hf : findAnn st id = some (k, d))
    (hs : update_announcement localOff now st id upd username = Except.ok (st2, p2)) :
    findAnn st2 id = some p2 ∧
    (upd.message = none → p2.2.message = d.message) ∧
    (upd.start_date = none → p2.2.start_date = d.start_date) ∧
    (upd.expiration_date = none → p2.2.expiration_date = d.expiration_date) ∧
    (d.start_date ≠ none → p2.2.start_date ≠ none) := by
  obtain ⟨k', d', hf', hfind2, hcases⟩ :=
    update_ok_characterize localOff now st id upd username st2 p2 hs
  rw [hf] at hf'
  injection hf' with hf'
  obtain ⟨hk, hd⟩ := Prod.mk.injEq .. ▸ hf'
  subst hk
  subst hd
  refine ⟨hfind2, ?_⟩
  cases hcases with
  | inl h =>
    obtain ⟨-, -, hp⟩ := h
    subst hp
    exact ⟨fun _ => rfl, fun _ => rfl, fun _ => rfl, fun h => h⟩
  | inr h =>
    obtain ⟨-, -, hp⟩ := h
    subst hp
    obtain ⟨hm, hsd, hed⟩ := apply_update_fields upd d
    refine ⟨fun h0 => ?_, fun h0 => ?_, fun h0 => ?_, fun h0 => ?_⟩
    · rw [hm, h0]; rfl
    · rw [hsd, h0]; rfl
    · rw [hed, h0]; rfl
    · rw [hsd]
      cases hu : upd.start_date with
      | none => simpa [Option.or] using h0
      | some s => simp [Option.or]

/-- Claim C9 (witness): a concrete update providing only a message keeps the
stored `start_date` and `expiration_date`. -/
theorem claim9_witness :
    findAnn ⟨["t1"],
        [(0, AnnDoc.mk "m2" (some "2020-01-01T00:00:00Z") "2030-01-01T00:00:00+00:00" "t1" "c")],
        1⟩ 0 =
      some (0, AnnDoc.mk "m2" (some "2020-01-01T00:00:00Z") "2030-01-01T00:00:00+00:00" "t1" "c") ∧
    ((⟨some "m2", none, none⟩ : AnnouncementUpdate).message = none →
      (AnnDoc.mk "m2" (some "2020-01-01T00:00:00Z") "2030-01-01T00:00:00+00:00" "t1" "c").message =
      (AnnDoc.mk "m" (some "2020-01-01T00:00:00Z") "2030-01-01T00:00:00+00:00" "t1" "c").message) ∧
    ((⟨some "m2", none, none⟩ : AnnouncementUpdate).start_date = none →
      (AnnDoc.mk "m2" (some "2020-01-01T00:00:00Z") "2030-01-01T00:00:00+00:00" "t1" "c").start_date =
      (AnnDoc.mk "m" (some "2020-01-01T00:00:00Z") "2030-01-01T00:00:00+00:00" "t1" "c").start_date) ∧
    ((⟨some "m2", none, none⟩ : AnnouncementUpdate).expiration_date = none →
      (AnnDoc.mk "m2" (some "2020-01-01T00:00:00Z") "2030-01-01T00:00:00+00:00" "t1" "c").expiration_date =
      (AnnDoc.mk "m" (some "2020-01-01T00:00:00Z") "2030-01-01T00:00:00+00:00" "t1" "c").expiration_date) ∧
    ((AnnDoc.mk "m" (some "2020-01-01T00:00:00Z") "2030-01-01T00:00:00+00:00" "t1" "c").start_date ≠ none →
      (AnnDoc.mk "m2" (some "2020-01-01T00:00:00Z") "2030-01-01T00:00:00+00:00" "t1" "c").start_date ≠ none) :=
  claim9_null_keeps_fields 0 0
    ⟨["t1"], [(0, AnnDoc.mk "m" (some "2020-01-01T00:00:00Z") "2030-01-01T00:00:00+00:00" "t1" "c")], 1⟩
    0 ⟨some "m2", none, none⟩ "t1" 0
    (AnnDoc.mk "m" (some "2020-01-01T00:00:00Z") "2030-01-01T00:00:00+00:00" "t1" "c")
    ⟨["t1"], [(0, AnnDoc.mk "m2" (some "2020-01-01T00:00:00Z") "2030-01-01T00:00:00+00:00" "t1" "c")], 1⟩
    (0, AnnDoc.mk "m2" (some "2020-01-01T00:00:00Z") "2030-01-01T00:00:00+00:00" "t1" "c")
    (by decide) rfl

/-- A successful create returns exactly the insertion of the request. -/
theorem create_ok_characterize (localOff now : Int) (createdAt : String)
    (st : Store) (req : AnnouncementCreate) (st2 : Store) (p : Nat × AnnDoc)
    (h : create_announcement localOff now createdAt st req = Except.ok (st2, p)) :
    (st2, p) = create_insert createdAt st req := by
  unfold create_announcement at h
  split at h
  · exact absurd h (by simp)
  · split at h
    · exact absurd h (by simp)
    · split at h
      · exact absurd h (by simp)
      · split at h
        · split at h
          · exact absurd h (by simp)
          · injection h with h
            exact h.symm
        · injection h with h
          exact h.symm

/-- Claim C10: whenever `create` or `update` succeeds, the persisted (and
returned) record carries the client's date strings verbatim — parsing and UTC
normalization are used only for validation and never rewrite the stored
values. -/
theorem claim10_stores_exact_strings :
    (∀ (localOff now : Int) (createdAt : String) (st : Store) (req : AnnouncementCreate)
        (st2 : Store) (p : Nat × AnnDoc),
      create_announcement localOff now createdAt st req = Except.ok (st2, p) →
        p.2.start_date = req.start_date ∧ p.2.expiration_date = req.expiration_date ∧
        p ∈ st2.anns) ∧
    (∀ (localOff now : Int) (st : Store) (id : Nat) (upd : AnnouncementUpdate)
        (username : String) (st2 : Store) (p2 : Nat × AnnDoc),
      update_announcement localOff now st id upd username = Except.ok (st2, p2) →
        (∀ s, upd.start_date = some s → p2.2.start_date = some s) ∧
        (∀ e, upd.expiration_date = some e → p2.2.expiration_date = e) ∧
        p2 ∈ st2.anns) := by
  constructor
  · intro localOff now createdAt st req st2 p h
    have hc := create_ok_characterize localOff now createdAt st req st2 p h
    rw [show create_insert createdAt st req =
        (⟨st.teachers, st.anns ++ [(st.nextId, AnnDoc.mk req.message req.start_date
          req.expiration_date req.created_by createdAt)], st.nextId + 1⟩,
         (st.nextId, AnnDoc.mk req.message req.start_date
          req.expiration_date req.created_by createdAt)) from rfl] at hc
    injection hc with h1 h2
    subst h1
    subst h2
    exact ⟨rfl, rfl, by simp⟩
  · intro localOff now st id upd username st2 p2 h
    obtain ⟨k, d, -, hfind2, hcases⟩ :=
      update_ok_characterize localOff now st id upd username st2 p2 h
    have hmem : p2 ∈ st2.anns := List.mem_of_find?_eq_some hfind2
    cases hcases with
    | inl hc =>
      obtain ⟨hprov, -, hp⟩ := hc
      refine ⟨fun s hus => ?_, fun e hue => ?_, hmem⟩
      · exfalso
        unfold update_provided at hprov
        rw [hus] at hprov
        simp at hprov
      · exfalso
        unfold update_provided at hprov
        rw [hue] at hprov
        simp at hprov
    | inr hc =>
      obtain ⟨-, -, hp⟩ := hc
      subst hp
      obtain ⟨-, hsd, hed⟩ := apply_update_fields upd d
      refine ⟨fun s hus => ?_, fun e hue => ?_, hmem⟩
      · rw [hsd, hus]; rfl
      · rw [hed, hue]; rfl

/-- Claim C10 (witness): concrete create and update calls persist the
supplied date strings verbatim. -/
theorem claim10_witness :
    ((AnnDoc.mk "hello" (some "2020-01-01T00:00:00Z") "2030-01-01T00:00:00+00:00" "t1" "c").start_date =
        some "2020-01-01T00:00:00Z" ∧
      (AnnDoc.mk "hello" (some "2020-01-01T00:00:00Z") "2030-01-01T00:00:00+00:00" "t1" "c").expiration_date =
        "2030-01-01T00:00:00+00:00" ∧
      ((0, AnnDoc.mk "hello" (some "2020-01-01T00:00:00Z") "2030-01-01T00:00:00+00:00" "t1" "c") ∈
        (⟨["t1"], [(0, AnnDoc.mk "hello" (some "2020-01-01T00:00:00Z") "2030-01-01T00:00:00+00:00" "t1" "c")], 1⟩ : Store).anns)) ∧
    ((∀ s, (⟨none, some "2020-01-01T00:00:00Z", none⟩ : AnnouncementUpdate).start_date = some s →
        (AnnDoc.mk "m" (some "2020-01-01T00:00:00Z") "2030-01-01T00:00:00+00:00" "t1" "c").start_date = some s) ∧
      (∀ e, (⟨none, some "2020-01-01T00:00:00Z", none⟩ : AnnouncementUpdate).expiration_date = some e →
        (AnnDoc.mk "m" (some "2020-01-01T00:00:00Z") "2030-01-01T00:00:00+00:00" "t1" "c").expiration_date = e) ∧
      ((0, AnnDoc.mk "m" (some "2020-01-01T00:00:00Z") "2030-01-01T00:00:00+00:00" "t1" "c") ∈
        (⟨["t1"], [(0, AnnDoc.mk "m" (some "2020-01-01T00:00:00Z") "2030-01-01T00:00:00+00:00" "t1" "c")], 1⟩ : Store).anns)) :=
  ⟨claim10_stores_exact_strings.1 0 0 "c" ⟨["t1"], [], 0⟩
      ⟨"hello", some "2020-01-01T00:00:00Z", "2030-01-01T00:00:00+00:00", "t1"⟩
      ⟨["t1"], [(0, AnnDoc.mk "hello" (some "2020-01-01T00:00:00Z") "2030-01-01T00:00:00+00:00" "t1" "c")], 1⟩
      (0, AnnDoc.mk "hello" (some "2020-01-01T00:00:00Z") "2030-01-01T00:00:00+00:00" "t1" "c") rfl,
    claim10_stores_exact_strings.2 0 0
      ⟨["t1"], [(0, AnnDoc.mk "m" (some "2020-01-01T00:00:00Z") "2030-01-01T00:00:00+00:00" "t1" "c")], 1⟩
      0 ⟨none, some "2020-01-01T00:00:00Z", none⟩ "t1"
      ⟨["t1"], [(0, AnnDoc.mk "m" (some "2020-01-01T00:00:00Z") "2030-01-01T00:00:00+00:00" "t1" "c")], 1⟩
      (0, AnnDoc.mk "m" (some "2020-01-01T00:00:00Z") "2030-01-01T00:00:00+00:00" "t1" "c") rfl⟩

/-- A parse failure makes `parseOk` false. -/
theorem parseOk_false_of_error (s : String) (msg : String)
    (h : parse_iso_datetime s = Except.error msg) : parseOk s = false := by
  cases hok : parseOk s
  · rfl
  · exfalso
    obtain ⟨dt, hdt⟩ := (parseOk_eq_true_iff s).mp hok
    rw [h] at hdt
    exact Except.noConfusion hdt

/-- After authentication succeeds, `create_announcement` reduces to its
validation chain. -/
theorem create_announcement_eq (localOff now : Int) (createdAt : String)
    (st : Store) (req : AnnouncementCreate)
    (ht : st.teachers.contains req.created_by = true) :
    create_announcement localOff now createdAt st req =
      match parse_iso_datetime req.expiration_date with
      | Except.error _ => Except.error Err.invalidInput
      | Except.ok exp =>
        if to_utc_naive localOff exp ≤ now then Except.error Err.invalidInput
        else
          if pyTruthy req.start_date then
            match parse_iso_datetime (req.start_date.getD "") with
            | Except.error _ => Except.error Err.invalidInput
            | Except.ok _ => Except.ok (create_insert createdAt st req)
          else Except.ok (create_insert createdAt st req) := by
  unfold create_announcement
  rw [ht]
  exact rfl

/-- Claim C3 (counterexample): a create request by a known teacher whose
`start_date` is present but equal to the unparseable empty string *succeeds*
and persists the record (Python truthiness skips validating `""`), although
the claim requires it to fail with `InvalidInput`. -/
theorem claim3_counterexample :
    (AnnouncementCreate.mk "m" (some "") "2030-01-01T00:00:00+00:00" "t1").start_date =
      some "" ∧
    parseOk "" = false ∧
    create_announcement 0 0 "c" ⟨["t1"], [], 0⟩
      (AnnouncementCreate.mk "m" (some "") "2030-01-01T00:00:00+00:00" "t1") =
      Except.ok (create_insert "c" ⟨["t1"], [], 0⟩
        (AnnouncementCreate.mk "m" (some "") "2030-01-01T00:00:00+00:00" "t1")) :=
  ⟨rfl, by decide, rfl⟩

/-- Claim C3 (amended): for a known teacher, `create` fails with
`InvalidInput` — persisting nothing, no store being produced — exactly when
the expiration fails to parse or is not strictly future, or the `start_date`
is truthy (present and *non-empty*) and fails to parse; otherwise the record
is persisted and returned. -/
theorem claim3_create_validation_amended (localOff now : Int) (createdAt : String)
    (st : Store) (req : AnnouncementCreate)
    (ht : st.teachers.contains req.created_by = true) :
    ((parseOk req.expiration_date = false ∨
      (∃ e, parse_iso_datetime req.expiration_date = Except.ok e ∧
        to_utc_naive localOff e ≤ now) ∨
      (pyTruthy req.start_date = true ∧ parseOk (req.start_date.getD "") = false)) →
      create_announcement localOff now createdAt st req = Except.error Err.invalidInput) ∧
    (¬(parseOk req.expiration_date = false ∨
      (∃ e, parse_iso_datetime req.expiration_date = Except.ok e ∧
        to_utc_naive localOff e ≤ now) ∨
      (pyTruthy req.start_date = true ∧ parseOk (req.start_date.getD "") = false)) →
      create_announcement localOff now createdAt st req =
        Except.ok (create_insert createdAt st req)) := by
  rw [create_announcement_eq localOff now createdAt st req ht]
  constructor
  · intro hb
    split
    · rfl
    · rename_i e hpe
      have hokk : parseOk req.expiration_date = true := (parseOk_eq_true_iff _).mpr ⟨e, hpe⟩
      split
      · rfl
      · rename_i hgt
        cases hb with
        | inl h =>
          rw [hokk] at h
          exact Bool.noConfusion h
        | inr h =>
          cases h with
          | inl h =>
            obtain ⟨e', he', hle'⟩ := h
            rw [hpe] at he'
            injection he' with he'
            subst he'
            exact absurd hle' hgt
          | inr h =>
            obtain ⟨h1, h2⟩ := h
            rw [if_pos h1]
            split
            · rfl
            · rename_i t hps
              exfalso
              have hok2 : parseOk (req.start_date.getD "") = true :=
                (parseOk_eq_true_iff _).mpr ⟨t, hps⟩
              rw [hok2] at h2
              exact Bool.noConfusion h2
  · intro hn
    split
    · rename_i msg hpe
      exact absurd (Or.inl (parseOk_false_of_error _ _ hpe)) hn
    · rename_i e hpe
      split
      · rename_i hle
        exact absurd (Or.inr (Or.inl ⟨e, hpe, hle⟩)) hn
      · split
        · rename_i htr
          split
          · rename_i msg hps
            exact absurd (Or.inr (Or.inr ⟨htr, parseOk_false_of_error _ _ hps⟩)) hn
          · rfl
        · rfl

/-- Claim C3 (witness): a fully valid concrete create request by a known
teacher persists and returns the record. -/
theorem claim3_witness :
    create_announcement 0 0 "c" ⟨["t1"], [], 0⟩
      (AnnouncementCreate.mk "m" none "2030-01-01T00:00:00+00:00" "t1") =
      Except.ok (create_insert "c" ⟨["t1"], [], 0⟩
        (AnnouncementCreate.mk "m" none "2030-01-01T00:00:00+00:00" "t1")) := by
  refine (claim3_create_validation_amended 0 0 "c" ⟨["t1"], [], 0⟩
    (AnnouncementCreate.mk "m" none "2030-01-01T00:00:00+00:00" "t1") (by decide)).2 ?_
  rintro (h | ⟨e, he, hle⟩ | ⟨h1, -⟩)
  · exact absurd h (by decide)
  · rw [parse_iso_datetime_ok_iff] at he
    have h0 : parse_iso_core "2030-01-01T00:00:00+00:00".data =
        some ⟨2030, 1, 1, 0, 0, 0, 0, some 0⟩ := by decide
    rw [he] at h0
    injection h0 with h0
    rw [h0] at hle
    exact absurd hle (by decide)
  · exact absurd h1 (by decide)

/-- The two fallback patterns are mutually exclusive: a string matching the
missing-seconds pattern cannot also match the fractional-seconds pattern
(character 17 is the end or a sign for the former, a colon for the latter). -/
theorem frac_none_of_missing (l v2 : List Char)
    (h : missingSecondsRewrite l = some v2) : fracSecondsRewrite l = none := by
  unfold missingSecondsRewrite at h
  unfold fracSecondsRewrite
  cases hm : matchDateHM l with
  | none => rfl
  | some pr =>
    obtain ⟨hd, rest⟩ := pr
    rw [hm] at h
    split at h
    · rfl
    · split at h
      · rfl
      · split
        · rename_i heqq
          exfalso
          simp only [List.cons.injEq] at heqq
          obtain ⟨-, -, -, h4, -⟩ := heqq
          exact absurd h4 (by decide)
        · rfl
      · exact absurd h (by simp)

/-- Claim C4: the timestamp parser tries exactly the three strategies —
direct ISO-8601 parse of the working string (input stripped and trailing `Z`
replaced by `+00:00`), the missing-seconds pattern with `:00` inserted, then
the fractional-seconds-stripped pattern — in that order, returns the first
success, and on total failure reports `ValueError` carrying the original
input string. -/
theorem claim4_parser_strategy_order (value : String) :
    parse_iso_datetime value =
      match specStrategyChain value with
      | some dt => Except.ok dt
      | none => Except.error ("Invalid ISO datetime: " ++ value) := by
  unfold parse_iso_datetime parse_iso_core parseChainW specStrategyChain
  unfold strategyDirect strategyNoSeconds strategyNoFrac
  cases h1 : fromisoformat (zReplace (pyStrip value.data)) with
  | some dt => rfl
  | none =>
    cases h2 : missingSecondsRewrite (zReplace (pyStrip value.data)) with
    | some v2 =>
      show (match fromisoformat v2 with
        | some dt => Except.ok dt
        | none => Except.error ("Invalid ISO datetime: " ++ value)) =
        (match (match fromisoformat v2 with
            | some dt => some dt
            | none => (fracSecondsRewrite (zReplace (pyStrip value.data))).bind fromisoformat) with
          | some dt => Except.ok dt
          | none => Except.error ("Invalid ISO datetime: " ++ value))
      cases h3 : fromisoformat v2 with
      | some dt => rfl
      | none =>
        rw [frac_none_of_missing _ _ h2]
        rfl
    | none =>
      show (match (match fracSecondsRewrite (zReplace (pyStrip value.data)) with
            | some v3 => fromisoformat v3
            | none => none) with
        | some dt => Except.ok dt
        | none => Except.error ("Invalid ISO datetime: " ++ value)) =
        (match ((fracSecondsRewrite (zReplace (pyStrip value.data))).bind fromisoformat) with
          | some dt => Except.ok dt
          | none => Except.error ("Invalid ISO datetime: " ++ value))
      cases h4 : fracSecondsRewrite (zReplace (pyStrip value.data)) with
      | some v3 => rfl
      | none => rfl

/-- Dropping trailing whitespace is the identity on a list whose last
character is not whitespace. -/
theorem stripEnd_of_last_not_ws (x : List Char) (c : Char)
    (hc : c.isWhitespace = false) (h : x.getLast? = some c) :
    (x.reverse.dropWhile Char.isWhitespace).reverse = x := by
  cases hx : x.reverse with
  | nil =>
    exfalso
    have hx2 : x = [] := by
      have h3 := congrArg List.reverse hx
      simpa using h3
    rw [hx2] at h
    exact Option.noConfusion h
  | cons a t =>
    have ha : a = c := by
      have h2 := List.head?_reverse x
      rw [hx, h] at h2
      simpa using h2
    subst ha
    have hred : List.dropWhile Char.isWhitespace (a :: t) = a :: t := by
      simp [List.dropWhile_cons, hc]
    rw [hred, ← hx, List.reverse_reverse]

/-- The working string of the parser is the same whether the input ends in
`Z` or already ends in the substituted `+00:00`. -/
theorem strip_z_eq (b : List Char) :
    zReplace (pyStrip (b ++ plus0000)) = zReplace (pyStrip (b ++ ('Z' :: []))) := by
  unfold pyStrip
  rw [List.dropWhile_append, List.dropWhile_append]
  by_cases hA : (b.dropWhile Char.isWhitespace).isEmpty
  · rw [if_pos hA, if_pos hA]
    decide
  · rw [if_neg hA, if_neg hA]
    have g1 : (b.dropWhile Char.isWhitespace ++ plus0000).getLast? = some '0' := by
      rw [List.getLast?_append_of_ne_nil _ (by decide)]
      decide
    have g2 : (b.dropWhile Char.isWhitespace ++ ('Z' :: [])).getLast? = some 'Z' :=
      List.getLast?_concat _
    rw [stripEnd_of_last_not_ws _ '0' (by decide) g1,
      stripEnd_of_last_not_ws _ 'Z' (by decide) g2]
    unfold zReplace
    simp only [g1, g2]
    simp [List.dropLast_concat]

/-- Claim C5 (counterexample): the string `" 2026-01-20T12:34:56Z"` (with a
leading space) ends in `Z` and is accepted by the parser, which strips
whitespace before anything else; but the same string with the trailing `Z`
replaced by `+00:00` is not valid ISO-8601 (here read, as everywhere in the
source, as acceptance by the direct `fromisoformat` parse — a leading space
is equally invalid under the ISO-8601 grammar itself). -/
theorem claim5_counterexample :
    " 2026-01-20T12:34:56Z".data.getLast? = some 'Z' ∧
    parseOk " 2026-01-20T12:34:56Z" = true ∧
    isValidIso " 2026-01-20T12:34:56+00:00" = false := by
  refine ⟨by decide, by decide, by decide⟩

/-- Claim C5 (amended): for every string ending in `Z`, the parser accepts it
iff it accepts the same string with the trailing `Z` replaced by `+00:00`
(the two inputs yield the same working string after stripping and
substitution, hence exactly the same parse). -/
theorem claim5_z_replacement_amended (s : String) (h : s.data.getLast? = some 'Z') :
    parseOk s = parseOk (String.mk (s.data.dropLast ++ plus0000)) := by
  obtain ⟨b, hb1, hb2⟩ : ∃ b, s.data = b ++ ('Z' :: []) ∧ s.data.dropLast = b :=
    ⟨s.data.dropLast, (List.dropLast_append_getLast? 'Z' h).symm, rfl⟩
  unfold parseOk parse_iso_core
  show (parseChainW (zReplace (pyStrip s.data))).isSome =
    (parseChainW (zReplace (pyStrip (s.data.dropLast ++ plus0000)))).isSome
  rw [hb2, hb1, strip_z_eq b]

/-- Claim C5 (witness): a concrete `Z`-suffixed string and its `+00:00` form
are accepted alike. -/
theorem claim5_witness :
    parseOk "2026-01-20T12:34:56Z" =
      parseOk (String.mk ("2026-01-20T12:34:56Z".data.dropLast ++ plus0000)) :=
  claim5_z_replacement_amended "2026-01-20T12:34:56Z" (by decide)
